import Mathlib

/-!
Verification of the plainbox provider `manage_ext.py` build/clean/install
orchestration logic (repository `2014.pl.zygoon.examples.go-basic`).

The Python source is embedded shallowly:

* `shlexSplit` models Python's `shlex.split(s)` (POSIX mode,
  `whitespace_split = True`, `commenters = ''`, as configured by
  `shlex.split`), returning `Except` to model the `ValueError` raised on
  an unclosed quotation or a trailing escape character.
* `BuildCommand.invoked` / `CleanCommand.invoked` model the two `invoked`
  methods of `manage_ext.py`.  Observable actions (printing, spawning a
  child process, creating a directory, copying a file) are recorded as a
  trace of `Effect`s; the method result is `Except String (Option Int)`:
  `Except.error` models an uncaught Python exception, `Option Int` models
  the Python return value (`none` is Python's `None`, produced when the
  function body falls off the end without a `return` statement).
* `InstallCommandExt.install_src_executables` models
  `InstallCommandExt._install_src_executables`, and `destAfterInstall`
  gives the destination-directory state semantics of its copy loop.
-/

/-- Whitespace characters of Python's `shlex` lexer (`shlex.whitespace`). -/
def isShlexWs (c : Char) : Bool :=
  c = ' ' || c = '\t' || c = '\r' || c = '\n'

/-- Lexer states of `shlex.read_token`: outside a token, inside a word,
inside single quotes, inside double quotes, after a backslash whose
`escapedstate` is the word state, and after a backslash inside double
quotes (`escapedstate = '"'`). -/
inductive LexState where
  | space
  | word
  | squote
  | dquote
  | escWord
  | escDquote
deriving DecidableEq, Repr

/-- The loop of `shlex.read_token` fused over the whole input, for
`posix = True`, `whitespace_split = True`, `commenters = ''`,
`escapedquotes = '"'`.  `tok` is the current token (reversed), `q` the
`quoted` flag, `acc` the emitted tokens (reversed). -/
def shlexAux : List Char → LexState → List Char → Bool → List String →
    Except String (List String)
  | [], .space, _tok, _q, acc => .ok acc.reverse
  | [], .word, tok, q, acc =>
      if tok.isEmpty && !q then .ok acc.reverse
      else .ok ((String.mk tok.reverse) :: acc).reverse
  | [], .squote, _, _, _ => .error "No closing quotation"
  | [], .dquote, _, _, _ => .error "No closing quotation"
  | [], .escWord, _, _, _ => .error "No escaped character"
  | [], .escDquote, _, _, _ => .error "No escaped character"
  | c :: cs, .space, tok, q, acc =>
      if isShlexWs c then shlexAux cs .space tok q acc
      else if c = '\\' then shlexAux cs .escWord tok q acc
      else if c = '\'' then shlexAux cs .squote tok q acc
      else if c = '"' then shlexAux cs .dquote tok q acc
      else shlexAux cs .word (c :: tok) q acc
  | c :: cs, .word, tok, q, acc =>
      if isShlexWs c then
        if tok.isEmpty && !q then shlexAux cs .space [] false acc
        else shlexAux cs .space [] false ((String.mk tok.reverse) :: acc)
      else if c = '\'' then shlexAux cs .squote tok q acc
      else if c = '"' then shlexAux cs .dquote tok q acc
      else if c = '\\' then shlexAux cs .escWord tok q acc
      else shlexAux cs .word (c :: tok) q acc
  | c :: cs, .squote, tok, _q, acc =>
      if c = '\'' then shlexAux cs .word tok true acc
      else shlexAux cs .squote (c :: tok) true acc
  | c :: cs, .dquote, tok, _q, acc =>
      if c = '"' then shlexAux cs .word tok true acc
      else if c = '\\' then shlexAux cs .escDquote tok true acc
      else shlexAux cs .dquote (c :: tok) true acc
  | c :: cs, .escWord, tok, q, acc =>
      shlexAux cs .word (c :: tok) q acc
  | c :: cs, .escDquote, tok, q, acc =>
      if c = '\\' || c = '"' then shlexAux cs .dquote (c :: tok) q acc
      else shlexAux cs .dquote (c :: '\\' :: tok) q acc

/-- Python's `shlex.split(s)`: `Except.error` models the `ValueError`
raised on an unclosed quotation or a dangling escape character. -/
def shlexSplit (s : String) : Except String (List String) :=
  shlexAux s.data .space [] false []

/-- Observable actions of the orchestrator: printing a line to stdout,
`subprocess.call(argv, cwd=...)`, `subprocess.call(cmd, shell=True,
cwd=...)`, `os.makedirs(path, exist_ok=True)`, and
`shutil.copy(src, dst_dir)`. -/
inductive Effect where
  | print (s : String)
  | call (argv : List String) (cwd : String)
  | callShell (cmd : String) (cwd : String)
  | makedirs (path : String)
  | copy (src : String) (dst : String)
deriving DecidableEq, Repr

/-- `BuildCommand.build_cmd`: `self._keywords.get("build_cmd")`; the
keyword bag is a partial map from keyword name to string value. -/
def BuildCommand.build_cmd (keywords : String → Option String) : Option String :=
  keywords "build_cmd"

/-- `CleanCommand.clean_cmd`: `self._keywords.get("clean_cmd")`. -/
def CleanCommand.clean_cmd (keywords : String → Option String) : Option String :=
  keywords "clean_cmd"

/-- `BuildCommand.invoked(ns)`.  `childExit cmd` is the exit status the
shell child spawned by `subprocess.call(cmd, shell=True, ...)` would
return; the source discards that return value, so the model binds it and
drops it.  `srcIsDir` is `os.path.isdir(self.src_dir)`, `dry_run` is
`ns.dry_run`, `location` is `self.definition.location`.  The result pairs
the method's return value with the trace of effects. -/
def BuildCommand.invoked (childExit : String → Int)
    (keywords : String → Option String) (srcIsDir : Bool) (dry_run : Bool)
    (location : String) : Except String (Option Int) × List Effect :=
  match BuildCommand.build_cmd keywords with
  | none =>
      (.ok (some 1),
       [.print "This provider doesn't define build_cmd.",
        .print "Add it to manage.py and try again"])
  | some cmd =>
      if !srcIsDir then
        (.ok (some 1), [.print "The src/ directory doesn't exist"])
      else if dry_run then
        match shlexSplit cmd with
        | .error e => (.error e, [])
        | .ok toks =>
            if toks = ["make", "-C", "src"] then
              (.ok none, [.call ["make", "-C", "src", "-n"] location])
            else
              (.ok none, [.print cmd])
      else
        -- subprocess.call returns the child's exit status; the source
        -- does not return it, so invoked falls off the end returning None
        let _status := childExit cmd
        (.ok none, [.callShell cmd location])

/-- `CleanCommand.invoked(ns)`, same shape as `BuildCommand.invoked` with
`clean_cmd` and the `['make', '-C', 'src', 'clean']` special case. -/
def CleanCommand.invoked (childExit : String → Int)
    (keywords : String → Option String) (srcIsDir : Bool) (dry_run : Bool)
    (location : String) : Except String (Option Int) × List Effect :=
  match CleanCommand.clean_cmd keywords with
  | none =>
      (.ok (some 1),
       [.print "This provider doesn't define clean_cmd.",
        .print "Add it to manage.py and try again"])
  | some cmd =>
      if !srcIsDir then
        (.ok (some 1), [.print "The src/ directory doesn't exist"])
      else if dry_run then
        match shlexSplit cmd with
        | .error e => (.error e, [])
        | .ok toks =>
            if toks = ["make", "-C", "src", "clean"] then
              (.ok none, [.call ["make", "-C", "src", "clean", "-n"] location])
            else
              (.ok none, [.print cmd])
      else
        let _status := childExit cmd
        (.ok none, [.callShell cmd location])

/-- A direct entry of the `build/bin` directory as `_install_src_executables`
observes it: its filename, the result of `os.access(src_file, os.X_OK)`,
its permission bits and its contents (the latter two are what `shutil.copy`
transfers). -/
structure FsEntry where
  name : String
  xok : Bool
  mode : Nat
  content : String
deriving DecidableEq, Repr

/-- Python's `str.endswith(suffix)`: a suffix test on the character
sequence of the string. -/
def endswith (s suffix : String) : Bool :=
  suffix.data.isSuffixOf s.data

/-- The selection test of the copy loop:
`os.access(src_file, os.X_OK) or filename.endswith('.exe')`. -/
def selected (e : FsEntry) : Bool :=
  e.xok || endswith e.name ".exe"

/-- The effect trace of `InstallCommandExt._install_src_executables`: for
each entry of `os.listdir(src_dir)` that passes `selected`, the loop runs
`os.makedirs(dst_dir, exist_ok=True)` (failures swallowed by the
`try/except` around it) and then `shutil.copy(src_file, dst_dir)`. -/
def InstallCommandExt.install_src_executables (listing : List FsEntry)
    (src_dir dst_dir : String) : List Effect :=
  listing.flatMap fun e =>
    if selected e then
      [Effect.makedirs dst_dir, Effect.copy (src_dir ++ "/" ++ e.name) dst_dir]
    else []

/-- Return value of `_install_src_executables`: the Python function body has
no `return` statement, so it returns `None` whenever the loop completes. -/
def InstallCommandExt.install_src_executables_ret (_listing : List FsEntry) :
    Option Nat :=
  none

/-- The names of the entries the copy loop copies, in listing order. -/
def copiedNames (listing : List FsEntry) : List String :=
  (listing.filter fun e => selected e).map (·.name)

/-- The `(source path, destination directory)` pairs of the `shutil.copy`
actions in an effect trace, in order. -/
def copiesOf : List Effect → List (String × String)
  | [] => []
  | .copy s d :: es => (s, d) :: copiesOf es
  | .print _ :: es => copiesOf es
  | .call _ _ :: es => copiesOf es
  | .callShell _ _ :: es => copiesOf es
  | .makedirs _ :: es => copiesOf es

/-- `shutil.copy(src_file, dst_dir)` on the destination-directory state: the
destination maps each filename to `(mode, content)`; copying overwrites the
entry of the same name with the source entry's permission bits and
contents. -/
def copyInto (d : String → Option (Nat × String)) (e : FsEntry) :
    String → Option (Nat × String) :=
  fun n => if n = e.name then some (e.mode, e.content) else d n

/-- Destination-directory state after one run of the copy loop of
`_install_src_executables` over `listing`, starting from state `d`. -/
def destAfterInstall (listing : List FsEntry)
    (d : String → Option (Nat × String)) : String → Option (Nat × String) :=
  (listing.filter fun e => selected e).foldl copyInto d

/-- `InstallCommandExt.invoked(ns)`:
`super().invoked(ns)` (the host framework's package installation step,
outside this repository; its return value `hostRet` is discarded by the
source, which calls it as a bare statement) followed by
`self._install_src_executables(ns)`.  `buildBinListing` is `none` when
`build/bin` does not exist, in which case `os.listdir` raises
`FileNotFoundError` and the exception propagates out of `invoked`. -/
def InstallCommandExt.invoked (hostRet : Option Int)
    (buildBinListing : Option (List FsEntry)) (src_dir dst_dir : String) :
    Except String (Option Int) × List Effect :=
  let _host := hostRet
  match buildBinListing with
  | none => (.error "FileNotFoundError", [])
  | some listing =>
      (.ok none, InstallCommandExt.install_src_executables listing src_dir dst_dir)

/-- Effects by which the orchestrator itself mutates the filesystem:
creating a directory, copying a file, or handing an arbitrary command
string to a shell.  Printing and spawning a child process with a fixed
argument vector are not: any mutation there is the child's, not the
orchestrator's. -/
def orchestratorMutatesFs : Effect → Bool
  | .print _ => false
  | .call _ _ => false
  | .callShell _ _ => true
  | .makedirs _ => true
  | .copy _ _ => true

/-- A `build/bin` listing with one file with execute permission, one plain
file without it, and one non-executable file named `tool.exe`. -/
def exampleListing : List FsEntry :=
  [⟨"runner", true, 493, "runner-bytes"⟩,
   ⟨"plain", false, 420, "plain-bytes"⟩,
   ⟨"tool.exe", false, 420, "tool-bytes"⟩]

theorem shlexSplit_make_src : shlexSplit "make -C src" = .ok ["make", "-C", "src"] :=
  rfl

theorem shlexSplit_make_src_clean :
    shlexSplit "make -C src clean" = .ok ["make", "-C", "src", "clean"] :=
  rfl

theorem shlexSplit_quotes : shlexSplit "a 'b c' \"d e\"" = .ok ["a", "b c", "d e"] :=
  rfl

theorem shlexSplit_unclosed : shlexSplit "'" = .error "No closing quotation" :=
  rfl

/-- The copies an installation run performs are exactly the selected
entries, in listing order, copied from `src_dir` into `dst_dir`. -/
theorem copiesOf_install (listing : List FsEntry) (src_dir dst_dir : String) :
    copiesOf (InstallCommandExt.install_src_executables listing src_dir dst_dir) =
      (copiedNames listing).map fun n => (src_dir ++ "/" ++ n, dst_dir) := by
  induction listing with
  | nil => rfl
  | cons e l ih =>
      by_cases h : selected e <;>
        simp [InstallCommandExt.install_src_executables, copiedNames,
              List.flatMap_cons, h, copiesOf] at ih ⊢ <;>
        exact ih

/-- Pointwise value of the copy-loop fold: the last selected entry of the
list with the queried name wins, and absent that the prior state answers. -/
theorem foldl_copyInto_apply (L : List FsEntry)
    (d : String → Option (Nat × String)) (n : String) :
    L.foldl copyInto d n =
      (L.reverse.find? fun e => e.name == n).elim (d n)
        (fun e => some (e.mode, e.content)) := by
  induction L generalizing d with
  | nil => rfl
  | cons e L ih =>
      rw [List.foldl_cons, ih, List.reverse_cons, List.find?_append]
      rcases h : L.reverse.find? (fun e => e.name == n) with _ | e'
      · by_cases hn : e.name = n
        · simp [h, Option.or, List.find?_cons, hn, copyInto, Option.elim]
        · have hn2 : ¬ n = e.name := fun hh => hn hh.symm
          simp [h, Option.or, List.find?_cons, hn, hn2, copyInto, Option.elim]
      · simp [h, Option.or, Option.elim]

/-- Claim C1 (code bug): in real mode with `build_cmd` configured as
`exit 7` and `src/` present, the spawned shell child exits with status 7,
but `invoked` discards the return value of `subprocess.call` and falls off
the end of its body, returning `None` rather than 7; likewise for clean.
The claimed equality between the action's result and the child's exit code
does not hold. -/
theorem real_mode_discards_child_exit_code :
    BuildCommand.invoked (fun _ => 7)
        (fun k => if k = "build_cmd" then some "exit 7" else none) true false "/p" =
      (Except.ok none, [Effect.callShell "exit 7" "/p"]) ∧
    (BuildCommand.invoked (fun _ => 7)
        (fun k => if k = "build_cmd" then some "exit 7" else none) true false "/p").1 ≠
      Except.ok (some 7) ∧
    CleanCommand.invoked (fun _ => 5)
        (fun k => if k = "clean_cmd" then some "exit 5" else none) true false "/p" =
      (Except.ok none, [Effect.callShell "exit 5" "/p"]) := by
  refine ⟨rfl, ?_, rfl⟩
  intro h
  rw [show (BuildCommand.invoked (fun _ => 7)
      (fun k => if k = "build_cmd" then some "exit 7" else none) true false "/p").1 =
      Except.ok none from rfl] at h
  simp at h

/-- Claim C2: with `build_cmd` (resp. `clean_cmd`) absent from the keyword
bag, build (resp. clean) returns 1 in both dry-run and real mode, and its
whole effect trace is the two guidance lines printed to stdout: no
subprocess is spawned and nothing on the filesystem is touched. -/
theorem unconfigured_command_exit_1 (childExit : String → Int)
    (kwB kwC : String → Option String) (srcIsDir dry_run : Bool)
    (location : String)
    (hB : kwB "build_cmd" = none) (hC : kwC "clean_cmd" = none) :
    BuildCommand.invoked childExit kwB srcIsDir dry_run location =
      (Except.ok (some 1),
       [Effect.print "This provider doesn't define build_cmd.",
        Effect.print "Add it to manage.py and try again"]) ∧
    CleanCommand.invoked childExit kwC srcIsDir dry_run location =
      (Except.ok (some 1),
       [Effect.print "This provider doesn't define clean_cmd.",
        Effect.print "Add it to manage.py and try again"]) := by
  constructor <;>
    simp [BuildCommand.invoked, CleanCommand.invoked,
          BuildCommand.build_cmd, CleanCommand.clean_cmd, hB, hC]

/-- Witness for the unconfigured-command theorem at a concrete
configuration. -/
theorem unconfigured_command_exit_1_witness :
    ((fun _ => (none : Option String)) "build_cmd" = none) ∧
    ((fun _ => (none : Option String)) "clean_cmd" = none) ∧
    (BuildCommand.invoked (fun _ => 0) (fun _ => none) true true "/p" =
      (Except.ok (some 1),
       [Effect.print "This provider doesn't define build_cmd.",
        Effect.print "Add it to manage.py and try again"]) ∧
     CleanCommand.invoked (fun _ => 0) (fun _ => none) true true "/p" =
      (Except.ok (some 1),
       [Effect.print "This provider doesn't define clean_cmd.",
        Effect.print "Add it to manage.py and try again"])) :=
  ⟨rfl, rfl,
   unconfigured_command_exit_1 (fun _ => 0) (fun _ => none) (fun _ => none)
     true true "/p" rfl rfl⟩

/-- Claim C3: with the command configured but `src/` not a directory, build
and clean return 1 in both dry-run and real mode, printing one line and
spawning nothing. -/
theorem missing_src_dir_exit_1 (childExit : String → Int)
    (kwB kwC : String → Option String) (cmdB cmdC : String) (dry_run : Bool)
    (location : String)
    (hB : kwB "build_cmd" = some cmdB) (hC : kwC "clean_cmd" = some cmdC) :
    BuildCommand.invoked childExit kwB false dry_run location =
      (Except.ok (some 1), [Effect.print "The src/ directory doesn't exist"]) ∧
    CleanCommand.invoked childExit kwC false dry_run location =
      (Except.ok (some 1), [Effect.print "The src/ directory doesn't exist"]) := by
  constructor <;>
    simp [BuildCommand.invoked, CleanCommand.invoked,
          BuildCommand.build_cmd, CleanCommand.clean_cmd, hB, hC]

/-- Witness for the missing-src-directory theorem at a concrete
configuration. -/
theorem missing_src_dir_exit_1_witness :
    ((fun _ => some "make -C src") "build_cmd" = some "make -C src") ∧
    ((fun _ => some "make -C src clean") "clean_cmd" = some "make -C src clean") ∧
    (BuildCommand.invoked (fun _ => 0) (fun _ => some "make -C src")
        false false "/p" =
      (Except.ok (some 1), [Effect.print "The src/ directory doesn't exist"]) ∧
     CleanCommand.invoked (fun _ => 0) (fun _ => some "make -C src clean")
        false false "/p" =
      (Except.ok (some 1), [Effect.print "The src/ directory doesn't exist"])) :=
  ⟨rfl, rfl,
   missing_src_dir_exit_1 (fun _ => 0) (fun _ => some "make -C src")
     (fun _ => some "make -C src clean") "make -C src" "make -C src clean"
     false "/p" rfl rfl⟩

/-- Counterexample to claim C4 as stated: with `clean_cmd` configured as a
lone single quote, `src/` present and dry-run requested, `shlex.split`
raises `ValueError: No closing quotation`, so the action neither prints the
literal command string nor spawns anything - it propagates the exception. -/
theorem dry_run_unclosed_quote_crashes :
    CleanCommand.invoked (fun _ => 0)
        (fun k => if k = "clean_cmd" then some "'" else none) true true "/p" =
      (Except.error "No closing quotation", []) ∧
    (CleanCommand.invoked (fun _ => 0)
        (fun k => if k = "clean_cmd" then some "'" else none) true true "/p").2 ≠
      [Effect.print "'"] := by
  refine ⟨rfl, ?_⟩
  intro h
  rw [show (CleanCommand.invoked (fun _ => 0)
      (fun k => if k = "clean_cmd" then some "'" else none) true true "/p").2 =
      [] from rfl] at h
  simp at h

/-- Claim C4 as amended: in dry-run mode with the command configured and
`src/` present, for every command string that shell-tokenizes successfully,
the special make token sequence is re-invoked with `-n` appended in the
project root, and every other such command string is only printed; command
strings that fail tokenization instead raise the tokenizer's error. -/
theorem dry_run_special_case (childExit : String → Int)
    (kwB kwC : String → Option String) (cmdB cmdC : String)
    (toksB toksC : List String) (location : String)
    (hB : kwB "build_cmd" = some cmdB)
    (hsB : shlexSplit cmdB = Except.ok toksB)
    (hC : kwC "clean_cmd" = some cmdC)
    (hsC : shlexSplit cmdC = Except.ok toksC) :
    BuildCommand.invoked childExit kwB true true location =
      (if toksB = ["make", "-C", "src"] then
        (Except.ok none, [Effect.call ["make", "-C", "src", "-n"] location])
       else (Except.ok none, [Effect.print cmdB])) ∧
    CleanCommand.invoked childExit kwC true true location =
      (if toksC = ["make", "-C", "src", "clean"] then
        (Except.ok none, [Effect.call ["make", "-C", "src", "clean", "-n"] location])
       else (Except.ok none, [Effect.print cmdC])) := by
  constructor <;>
    simp [BuildCommand.invoked, CleanCommand.invoked, BuildCommand.build_cmd,
          CleanCommand.clean_cmd, hB, hC, hsB, hsC]

/-- Witness for the dry-run special-case theorem at the two make commands
of the spec's examples. -/
theorem dry_run_special_case_witness :
    ((fun _ => some "make -C src") "build_cmd" = some "make -C src") ∧
    shlexSplit "make -C src" = Except.ok ["make", "-C", "src"] ∧
    ((fun _ => some "make -C src clean") "clean_cmd" = some "make -C src clean") ∧
    shlexSplit "make -C src clean" = Except.ok ["make", "-C", "src", "clean"] ∧
    (BuildCommand.invoked (fun _ => 0) (fun _ => some "make -C src")
        true true "/p" =
      (if ["make", "-C", "src"] = ["make", "-C", "src"] then
        (Except.ok none, [Effect.call ["make", "-C", "src", "-n"] "/p"])
       else (Except.ok none, [Effect.print "make -C src"])) ∧
     CleanCommand.invoked (fun _ => 0) (fun _ => some "make -C src clean")
        true true "/p" =
      (if ["make", "-C", "src", "clean"] = ["make", "-C", "src", "clean"] then
        (Except.ok none,
         [Effect.call ["make", "-C", "src", "clean", "-n"] "/p"])
       else (Except.ok none, [Effect.print "make -C src clean"]))) :=
  ⟨rfl, rfl, rfl, rfl,
   dry_run_special_case (fun _ => 0) (fun _ => some "make -C src")
     (fun _ => some "make -C src clean") "make -C src" "make -C src clean"
     ["make", "-C", "src"] ["make", "-C", "src", "clean"] "/p"
     rfl rfl rfl rfl⟩

/-- Claim C5: the copy loop copies an entry exactly when it has execute
permission or its name ends in `.exe`; on a listing with one executable
file, one plain file and a non-executable `tool.exe`, exactly the first and
third are copied. -/
theorem install_copies_iff_selected (listing : List FsEntry)
    (src_dir dst_dir : String) (n : String) :
    (n ∈ copiedNames listing ↔
      ∃ e, e ∈ listing ∧ (e.xok || endswith e.name ".exe") = true ∧ e.name = n) ∧
    copiesOf (InstallCommandExt.install_src_executables listing src_dir dst_dir) =
      (copiedNames listing).map (fun m => (src_dir ++ "/" ++ m, dst_dir)) ∧
    copiedNames exampleListing = ["runner", "tool.exe"] := by
  refine ⟨?_, copiesOf_install listing src_dir dst_dir, rfl⟩
  simp only [copiedNames, List.mem_map, List.mem_filter, selected]
  constructor
  · rintro ⟨e, ⟨he, hsel⟩, hn⟩
    exact ⟨e, he, hsel, hn⟩
  · rintro ⟨e, he, hsel, hn⟩
    exact ⟨e, ⟨he, hsel⟩, hn⟩

/-- Claim C6: running the copy loop twice over the same source listing
leaves the destination directory in exactly the state one run produces -
same names, same contents, same permission bits. -/
theorem install_executables_idempotent (listing : List FsEntry)
    (d : String → Option (Nat × String)) :
    destAfterInstall listing (destAfterInstall listing d) =
      destAfterInstall listing d := by
  funext n
  simp only [destAfterInstall, foldl_copyInto_apply]
  rcases h : ((listing.filter fun e => selected e).reverse.find?
      fun e => e.name == n) with _ | e <;> simp [h, Option.elim]

/-- Counterexample to claim C7 as stated: on the three-entry example
listing the loop copies two files, but `_install_src_executables` has no
`return` statement, so it returns `None`, not 2. -/
theorem install_ret_is_none_not_count :
    InstallCommandExt.install_src_executables_ret exampleListing = none ∧
    (copiedNames exampleListing).length = 2 ∧
    InstallCommandExt.install_src_executables_ret exampleListing ≠
      some (copiedNames exampleListing).length := by
  refine ⟨rfl, rfl, ?_⟩
  intro h
  exact Option.noConfusion h

/-- Claim C7 as amended: the function returns `None` for every listing; the
number of copies it performed is observable only in its effect trace, where
the `shutil.copy` actions number exactly the selected entries. -/
theorem install_ret_amended (listing : List FsEntry) (src_dir dst_dir : String) :
    InstallCommandExt.install_src_executables_ret listing = none ∧
    (copiesOf
      (InstallCommandExt.install_src_executables listing src_dir dst_dir)).length =
      (copiedNames listing).length := by
  refine ⟨rfl, ?_⟩
  rw [copiesOf_install, List.length_map]

/-- Counterexample to claim C8 as stated: with the host package-installation
step succeeding (returning 0) but `build/bin` absent, `os.listdir` raises
`FileNotFoundError`, the exception propagates out of `invoked`, and the
overall install result is the error - not the host step's success. -/
theorem install_missing_build_bin_aborts :
    InstallCommandExt.invoked (some 0) none "/p/build/bin" "/usr/local/bin" =
      (Except.error "FileNotFoundError", []) ∧
    (InstallCommandExt.invoked (some 0) none "/p/build/bin" "/usr/local/bin").1 ≠
      Except.ok (some 0) := by
  refine ⟨rfl, ?_⟩
  intro h
  rw [show (InstallCommandExt.invoked (some 0) none "/p/build/bin"
      "/usr/local/bin").1 = Except.error "FileNotFoundError" from rfl] at h
  simp at h

/-- Claim C8 as amended: an artifact-installation failure does change the
install outcome - a missing `build/bin` directory raises out of `invoked` -
and when the listing succeeds `invoked` returns `None`, discarding the host
step's return value; only directory-creation errors inside the loop are
swallowed. -/
theorem install_invoked_behavior (hostRet : Option Int)
    (listing : List FsEntry) (src_dir dst_dir : String) :
    InstallCommandExt.invoked hostRet (some listing) src_dir dst_dir =
      (Except.ok none,
       InstallCommandExt.install_src_executables listing src_dir dst_dir) ∧
    InstallCommandExt.invoked hostRet none src_dir dst_dir =
      (Except.error "FileNotFoundError", []) := by
  exact ⟨rfl, rfl⟩

/-- Claim C9: in dry-run mode, whatever the configuration, the build
action's effect trace contains no filesystem-mutating action of the
orchestrator itself - no directory creation, no file copy, no shell
hand-off; it only prints lines or spawns the fixed `make -C src -n`
argument vector. -/
theorem build_dry_run_no_fs_mutation (childExit : String → Int)
    (keywords : String → Option String) (srcIsDir : Bool) (location : String) :
    ((BuildCommand.invoked childExit keywords srcIsDir true location).2.all
      fun e => !orchestratorMutatesFs e) = true := by
  rcases hk : BuildCommand.build_cmd keywords with _ | cmd
  · simp [BuildCommand.invoked, hk, orchestratorMutatesFs]
  · cases srcIsDir
    · simp [BuildCommand.invoked, hk, orchestratorMutatesFs]
    · rcases hsp : shlexSplit cmd with e | toks
      · simp [BuildCommand.invoked, hk, hsp, orchestratorMutatesFs]
      · by_cases ht : toks = ["make", "-C", "src"] <;>
          simp [BuildCommand.invoked, hk, hsp, ht, orchestratorMutatesFs]

/-- Claim C10: an empty-string command is configured, not unset: build and
clean proceed past the unconfigured check, and with `src/` present the
dry run prints the empty string while the real run hands the empty string
to the shell. -/
theorem empty_command_is_configured (childExit : String → Int)
    (kwB kwC : String → Option String) (location : String)
    (hB : kwB "build_cmd" = some "") (hC : kwC "clean_cmd" = some "") :
    BuildCommand.invoked childExit kwB true true location =
      (Except.ok none, [Effect.print ""]) ∧
    BuildCommand.invoked childExit kwB true false location =
      (Except.ok none, [Effect.callShell "" location]) ∧
    CleanCommand.invoked childExit kwC true true location =
      (Except.ok none, [Effect.print ""]) ∧
    CleanCommand.invoked childExit kwC true false location =
      (Except.ok none, [Effect.callShell "" location]) := by
  refine ⟨?_, ?_, ?_, ?_⟩ <;>
    simp [BuildCommand.invoked, CleanCommand.invoked, BuildCommand.build_cmd,
          CleanCommand.clean_cmd, hB, hC, shlexSplit, shlexAux]

/-- Witness for the empty-command theorem at a concrete configuration. -/
theorem empty_command_is_configured_witness :
    ((fun _ => some "") "build_cmd" = some "") ∧
    ((fun _ => some "") "clean_cmd" = some "") ∧
    (BuildCommand.invoked (fun _ => 0) (fun _ => some "") true true "/p" =
      (Except.ok none, [Effect.print ""]) ∧
     BuildCommand.invoked (fun _ => 0) (fun _ => some "") true false "/p" =
      (Except.ok none, [Effect.callShell "" "/p"]) ∧
     CleanCommand.invoked (fun _ => 0) (fun _ => some "") true true "/p" =
      (Except.ok none, [Effect.print ""]) ∧
     CleanCommand.invoked (fun _ => 0) (fun _ => some "") true false "/p" =
      (Except.ok none, [Effect.callShell "" "/p"])) :=
  ⟨rfl, rfl,
   empty_command_is_configured (fun _ => 0) (fun _ => some "") (fun _ => some "")
     "/p" rfl rfl⟩
